import Mathlib

/-!
Shallow embedding of the access-control and sharing core of the
`sanaap_api_challenge` document service.

Sources embedded:
  * `sanaap_api_challenge/documents/models.py` (Document, Share, grant rows)
  * `sanaap_api_challenge/documents/api/permissions.py`
    (`BaseDocumentPermission`, `DocumentPermission`, `CanShareDocument`)
  * `sanaap_api_challenge/documents/utils/permissions.py`
    (`check_document_access`, `CachedPermissionChecker` over django-guardian's
    `ObjectPermissionChecker`)
  * `sanaap_api_challenge/documents/api/views.py`
    (`DocumentViewSet.get_queryset`, `destroy`, `download`, `share`, `unshare`)
  * `sanaap_api_challenge/documents/api/serializers.py`
    (`ShareSerializer.validate`, `DocumentCreateSerializer.create`)

Modelling conventions:
  * Timestamps are natural numbers; `timezone.now()` is an explicit `now`
    argument.  Django's `expires_at__gt=timezone.now()` becomes `now < t`.
  * The permission cache (`CachedPermissionChecker`, 5-minute TTL) is modelled
    in its fresh/cold state, in which `has_perm` coincides with guardian's
    `ObjectPermissionChecker.has_perm`; all claims below are about decisions
    against the current store.
  * django-guardian object permissions (the grant store, rows of
    `DocumentUserObjectPermission`) are a list of (user, codename, document)
    triples.  Guardian's checker strips the app label (`perm.split('.')[-1]`),
    returns `False` for inactive users and `True` for active superusers.
  * Database rows (documents, shares, grants, users) are lists inside a `DB`
    structure; query-set `.filter(...).exists()` calls become `List.any`.
-/

/-- A subject, as the identity provider exposes it: opaque id plus
`is_active`, `is_superuser`, `is_authenticated` and group membership. -/
structure User where
  uid : Nat
  isActive : Bool
  isSuperuser : Bool
  isAuthenticated : Bool
  groups : List String
  deriving DecidableEq, Repr

/-- A `Document` row (`documents/models.py`, class `Document`): the fields the
access-control core reads.  `status` is one of the `STATUS` choices
"draft" / "active" / "archived" / "deleted"; `lastAccessed = none` models the
nullable `last_accessed` column. -/
structure Document where
  docId : Nat
  ownerId : Nat
  isPublic : Bool
  status : String
  fileHash : String
  title : String
  downloadCount : Nat
  lastAccessed : Option Nat
  deriving DecidableEq, Repr

/-- A `Share` row (`documents/models.py`, class `Share`).  `permissionLevel`
is one of the `PERMISSION_LEVEL` choices "view" / "edit" / "download";
`expiresAt = none` models the nullable `expires_at`; `sharedById = none`
models the nullable `shared_by` foreign key. -/
structure Share where
  shareId : Nat
  documentId : Nat
  sharedWithId : Nat
  sharedById : Option Nat
  permissionLevel : String
  expiresAt : Option Nat
  accessCount : Nat
  lastAccessed : Option Nat
  deriving DecidableEq, Repr

/-- A direct object-permission grant (a `DocumentUserObjectPermission` row of
django-guardian): (subject, permission codename, document). -/
structure Grant where
  userId : Nat
  codename : String
  documentId : Nat
  deriving DecidableEq, Repr

/-- The durable store the resolver consults: document, share, grant and user
rows. -/
structure DB where
  documents : List Document
  shares : List Share
  grants : List Grant
  users : List User
  deriving DecidableEq, Repr

/-- Guardian's `ObjectPermissionChecker.has_perm` first does
`perm = perm.split('.')[-1]`: the component after the last dot (the
permission codename; the string itself when it has no dot). -/
def permCodename (s : String) : String :=
  String.mk (s.data.foldl (fun acc c => if c = '.' then [] else acc ++ [c]) [])

/-- A grant row exists for (subject, codename, document). -/
def hasGrant (db : DB) (uid : Nat) (codename : String) (docId : Nat) : Bool :=
  db.grants.any fun g => g.userId == uid && g.codename == codename && g.documentId == docId

/-- Guardian's `ObjectPermissionChecker.has_perm(perm, obj)` (also the
object-permission path of Django's `user.has_perm(perm, obj)` with the
guardian backend): strip the app label, deny inactive users, allow active
superusers, otherwise look the codename up in the grant store.
`CachedPermissionChecker.has_perm` (utils/permissions.py) equals this on a
cold cache. -/
def guardianHasPerm (db : DB) (u : User) (perm : String) (d : Document) : Bool :=
  if !u.isActive then false
  else if u.isSuperuser then true
  else hasGrant db u.uid (permCodename perm) d.docId

/-- `BaseDocumentPermission._check_group_permission`: membership of the
"document_admins" group (the cached group-name list on a cold cache is
exactly `user.groups`). -/
def checkGroupPermission (u : User) : Bool :=
  u.groups.contains "document_admins"

/-- DRF `permissions.SAFE_METHODS = ("GET", "HEAD", "OPTIONS")`. -/
def isSafeMethod (m : String) : Bool :=
  m == "GET" || m == "HEAD" || m == "OPTIONS"

/-- The share-activity filter used by every queryset:
`Q(expires_at__isnull=True) | Q(expires_at__gt=timezone.now())`. -/
def shareActiveAt (now : Nat) (sh : Share) : Bool :=
  match sh.expiresAt with
  | none => true
  | some t => now < t

/-- `DocumentPermission._check_read_permission` (api/permissions.py 100-115):
a `view_doc` object permission, or a public document, or an unexpired share
for (document, user). -/
def checkReadPermission (db : DB) (now : Nat) (u : User) (d : Document) : Bool :=
  if guardianHasPerm db u "documents.view_doc" d then true
  else if d.isPublic then true
  else db.shares.any fun sh =>
    sh.documentId == d.docId && sh.sharedWithId == u.uid && shareActiveAt now sh

/-- `DocumentPermission.has_object_permission` (api/permissions.py 76-98):
superuser / "document_admins" member / owner allow; safe methods fall to the
read check; DELETE falls to the `documents.delete_doc` object permission;
every other method is denied. -/
def hasObjectPermission (db : DB) (now : Nat) (u : User) (method : String)
    (d : Document) : Bool :=
  if u.isSuperuser || checkGroupPermission u then true
  else if d.ownerId == u.uid then true
  else if isSafeMethod method then checkReadPermission db now u d
  else if method == "DELETE" then guardianHasPerm db u "documents.delete_doc" d
  else false

/-- `BaseDocumentPermission.has_permission` for the detail actions of
`DocumentViewSet` (retrieve/destroy/download/unshare: the subclass's
`_check_view_permission` returns `True` for every action except `create`):
authenticated, then superuser / admin group / fall-through `True`. -/
def hasPermissionDetail (u : User) : Bool :=
  if !u.isAuthenticated then false
  else if u.isSuperuser then true
  else if checkGroupPermission u then true
  else true

/-- The per-object view decision of `DocumentViewSet.retrieve`:
DRF runs `has_permission` and then `has_object_permission` with method GET. -/
def viewDecision (db : DB) (now : Nat) (u : User) (d : Document) : Bool :=
  hasPermissionDetail u && hasObjectPermission db now u "GET" d

/-- The in-line permission check of `DocumentViewSet.download`
(api/views.py 163-173): owner, or `user.has_perm("download_doc", document)`,
or public, or an unexpired share at level "download" or "edit". -/
def downloadBodyCheck (db : DB) (now : Nat) (u : User) (d : Document) : Bool :=
  d.ownerId == u.uid
  || guardianHasPerm db u "download_doc" d
  || d.isPublic
  || db.shares.any fun sh =>
       sh.documentId == d.docId && sh.sharedWithId == u.uid
       && (sh.permissionLevel == "download" || sh.permissionLevel == "edit")
       && shareActiveAt now sh

/-- The full download decision: `get_object()` checks
`has_permission`/`has_object_permission` (method GET), then the action body
runs its own check. -/
def downloadDecision (db : DB) (now : Nat) (u : User) (d : Document) : Bool :=
  hasPermissionDetail u && hasObjectPermission db now u "GET" d
    && downloadBodyCheck db now u d

/-- The list-queryset membership predicate of `DocumentViewSet.get_queryset`
(api/views.py 107-123): superusers see everything; otherwise owned, or shared
with no expiry, or shared with a future expiry, or public. -/
def inQueryset (db : DB) (now : Nat) (u : User) (d : Document) : Bool :=
  if u.isSuperuser then true
  else
    d.ownerId == u.uid
    || db.shares.any (fun sh =>
         sh.documentId == d.docId && sh.sharedWithId == u.uid && sh.expiresAt == none)
    || db.shares.any (fun sh =>
         sh.documentId == d.docId && sh.sharedWithId == u.uid
         && (match sh.expiresAt with | none => false | some t => now < t))
    || d.isPublic

/-- The delete decision of `DocumentViewSet.destroy`: DRF checks
`has_permission`, then `get_object()` (api/views.py 149) looks the document
up inside `get_queryset()` (api/views.py 107-123) — a document outside the
subject's queryset is a 404, hence a deny — and then runs
`has_object_permission` with method DELETE. -/
def deleteDecision (db : DB) (now : Nat) (u : User) (d : Document) : Bool :=
  hasPermissionDetail u && inQueryset db now u d
    && hasObjectPermission db now u "DELETE" d

/-- `check_document_access` (utils/permissions.py 258-281) with the default
`use_cache=True`: owner; public documents for the view permission; a
never-expiring share for the view permission; otherwise the cached guardian
check. -/
def check_document_access (db : DB) (u : User) (d : Document)
    (requiredPermission : String) : Bool :=
  if d.ownerId == u.uid then true
  else if d.isPublic
          && (requiredPermission == "view_doc"
              || requiredPermission == "documents.view_doc") then true
  else if (requiredPermission == "view_doc"
              || requiredPermission == "documents.view_doc")
          && db.shares.any (fun sh =>
               sh.documentId == d.docId && sh.sharedWithId == u.uid
               && sh.expiresAt == none) then true
  else guardianHasPerm db u requiredPermission d

/-- `CanShareDocument.has_object_permission` (api/permissions.py 118-130):
owner, otherwise `check_document_access(user, obj, "documents.share_doc")`. -/
def canShareObjectPermission (db : DB) (u : User) (d : Document) : Bool :=
  if d.ownerId == u.uid then true
  else check_document_access db u d "documents.share_doc"

/-- The share-authorization decision for `DocumentViewSet.share`
(permission classes `[IsAuthenticated, CanShareDocument]`):
authenticated, `CanShareDocument.has_permission` (which for the share action
falls through to `True` past the superuser/admin shortcuts), then
`CanShareDocument.has_object_permission`. -/
def shareAuthDecision (db : DB) (u : User) (d : Document) : Bool :=
  hasPermissionDetail u && canShareObjectPermission db u d

/-- Outcome of `DocumentViewSet.unshare`: 204 no-content, 403 forbidden
("Only the document owner can remove shares."), 404 share-not-found. -/
inductive UnshareResult
  | noContent
  | forbidden
  | notFound
  deriving DecidableEq, Repr

/-- `DocumentViewSet.unshare` (api/views.py 326-358) together with the DRF
steps the DELETE request runs first: `has_permission` (403);
`self.get_object()` (api/views.py 329), which looks the document up inside
`get_queryset()` (404 when the document is not visible to the actor) and then
checks `has_object_permission` with method DELETE (403); then the view body:
reject every actor other than the document owner with 403, otherwise look the
share up among the document's shares by id, delete it on success, 404 when
absent.  Returns the outcome together with the resulting store. -/
def unshare (db : DB) (now : Nat) (actor : User) (d : Document)
    (shareId : Nat) : UnshareResult × DB :=
  if !hasPermissionDetail actor then (.forbidden, db)
  else if !inQueryset db now actor d then (.notFound, db)
  else if !hasObjectPermission db now actor "DELETE" d then (.forbidden, db)
  else if actor.uid != d.ownerId then (.forbidden, db)
  else
    match db.shares.find? (fun sh => sh.shareId == shareId && sh.documentId == d.docId) with
    | none => (.notFound, db)
    | some _ =>
      (.noContent,
       { db with shares :=
           db.shares.filter fun sh => !(sh.shareId == shareId && sh.documentId == d.docId) })

/-- Outcome of `DocumentCreateSerializer.create`. -/
inductive CreateDocOutcome
  | created
  | duplicateContent
  | storageFailure
  deriving DecidableEq, Repr

/-- `DocumentCreateSerializer.create` (api/serializers.py 336-413), document
store effects only: hash the content (the hash value is taken as input, the
SHA-256 itself being external `hashlib`), reject when *any* existing document
row has the same `file_hash` (the filter has no status condition, so deleted
rows count too) without touching the store, reject on storage failure,
otherwise insert the new row owned by the requester. -/
def createDocument (db : DB) (requester : User) (fileHash : String)
    (title : String) (isPublic : Bool) (status : String) (uploadOk : Bool)
    (newId : Nat) : CreateDocOutcome × DB :=
  if db.documents.any (fun doc => doc.fileHash == fileHash) then
    (.duplicateContent, db)
  else if !uploadOk then (.storageFailure, db)
  else
    (.created,
     { db with documents := db.documents ++
         [{ docId := newId, ownerId := requester.uid, isPublic := isPublic,
            status := status, fileHash := fileHash, title := title,
            downloadCount := 0, lastAccessed := none }] })

/-- `Document.increment_download_count` (models.py 121-124):
`download_count = F("download_count") + 1` — a relative update of the stored
value (embedded as a function of the stored row, independent of any stale
in-memory copy) — and `last_accessed = timezone.now()`. -/
def increment_download_count (d : Document) (now : Nat) : Document :=
  { d with downloadCount := d.downloadCount + 1, lastAccessed := some now }

/-- `Share.increment_access_count` (models.py 215-218):
`access_count = F("access_count") + 1` and `last_accessed = timezone.now()`. -/
def increment_access_count (sh : Share) (now : Nat) : Share :=
  { sh with accessCount := sh.accessCount + 1, lastAccessed := some now }

/-- A sequence of download-path invocations at the given clock readings. -/
def applyDownloadTrace (d : Document) (ts : List Nat) : Document :=
  ts.foldl increment_download_count d

/-- A sequence of share-access invocations at the given clock readings. -/
def applyAccessTrace (sh : Share) (ts : List Nat) : Share :=
  ts.foldl increment_access_count sh

/-- The time a nullable `last_accessed` column stands for, null reading as the
epoch. -/
def accessTime (o : Option Nat) : Nat :=
  o.getD 0

/-! Concrete fixtures used by witnesses and counterexamples. -/

/-- uid 1: the owner in the fixtures. -/
def ownerUser : User :=
  { uid := 1, isActive := true, isSuperuser := false, isAuthenticated := true, groups := [] }

/-- uid 2: a plain authenticated subject (grant holder in some fixtures). -/
def granteeUser : User :=
  { uid := 2, isActive := true, isSuperuser := false, isAuthenticated := true, groups := [] }

/-- uid 3: a share recipient. -/
def recipientUser : User :=
  { uid := 3, isActive := true, isSuperuser := false, isAuthenticated := true, groups := [] }

/-- A private active document owned by uid 1. -/
def privateDoc : Document :=
  { docId := 7, ownerId := 1, isPublic := false, status := "active",
    fileHash := "h1", title := "report", downloadCount := 0, lastAccessed := none }

/-- A never-expiring "view"-level share of `privateDoc` to uid 3, granted by
uid 2. -/
def viewShare : Share :=
  { shareId := 10, documentId := 7, sharedWithId := 3, sharedById := some 2,
    permissionLevel := "view", expiresAt := none, accessCount := 0, lastAccessed := none }

/-- A share of `privateDoc` to uid 3 that expired at time 5. -/
def expiredShare : Share :=
  { shareId := 11, documentId := 7, sharedWithId := 3, sharedById := some 2,
    permissionLevel := "edit", expiresAt := some 5, accessCount := 0, lastAccessed := none }

/-- A public active document owned by uid 1. -/
def publicDoc : Document :=
  { docId := 8, ownerId := 1, isPublic := true, status := "active",
    fileHash := "h2", title := "notes", downloadCount := 0, lastAccessed := none }

/-- A never-expiring "view"-level share of `publicDoc` to uid 3, granted by
uid 2. -/
def publicDocShare : Share :=
  { shareId := 12, documentId := 8, sharedWithId := 3, sharedById := some 2,
    permissionLevel := "view", expiresAt := none, accessCount := 0, lastAccessed := none }

/-- Store: `publicDoc` with `publicDocShare` and no grants. -/
def dbPublicShared : DB :=
  { documents := [publicDoc], shares := [publicDocShare], grants := [],
    users := [ownerUser, granteeUser, recipientUser] }

/-- Store: the public `publicDoc` plus a `delete_doc` grant to uid 2. -/
def dbPublicDeleteGrant : DB :=
  { documents := [publicDoc], shares := [],
    grants := [{ userId := 2, codename := "delete_doc", documentId := 8 }],
    users := [ownerUser, granteeUser] }

/-- Store: `privateDoc` plus a `share_doc` grant to uid 2. -/
def dbShareGrant : DB :=
  { documents := [privateDoc], shares := [],
    grants := [{ userId := 2, codename := "share_doc", documentId := 7 }],
    users := [ownerUser, granteeUser] }

/-- Store: `privateDoc` shared (view level, no expiry) with uid 3. -/
def dbViewShare : DB :=
  { documents := [privateDoc], shares := [viewShare], grants := [],
    users := [ownerUser, granteeUser, recipientUser] }

/-- Store: `privateDoc` with an expired share to uid 3. -/
def dbExpiredShare : DB :=
  { documents := [privateDoc], shares := [expiredShare], grants := [],
    users := [ownerUser, granteeUser, recipientUser] }

/-! Helper lemmas shared by several claims. -/

/-- An authenticated user passes `has_permission` for the detail actions. -/
theorem hasPermissionDetail_of_auth (u : User) (h : u.isAuthenticated = true) :
    hasPermissionDetail u = true := by
  simp [hasPermissionDetail, h]

/-- A non-superuser with no grant rows at all fails every guardian check. -/
theorem guardianHasPerm_eq_false (db : DB) (u : User) (p : String) (d : Document)
    (hsup : u.isSuperuser = false)
    (hnogr : ∀ g ∈ db.grants, g.userId ≠ u.uid) :
    guardianHasPerm db u p d = false := by
  unfold guardianHasPerm hasGrant
  cases hact : u.isActive with
  | false => simp
  | true =>
    simp only [hact, Bool.not_true, Bool.false_eq_true, if_false, hsup, if_neg]
    simp only [List.any_eq_false]
    intro g hg hcontra
    simp only [Bool.and_eq_true, beq_iff_eq] at hcontra
    exact hnogr g hg (by tauto)

/-- Trace bookkeeping: a sequence of download increments adds its length to
`download_count`. -/
theorem applyDownloadTrace_count (ts : List Nat) : ∀ d : Document,
    (applyDownloadTrace d ts).downloadCount = d.downloadCount + ts.length := by
  induction ts with
  | nil => intro d; rfl
  | cons t ts ih =>
    intro d
    show (applyDownloadTrace (increment_download_count d t) ts).downloadCount = _
    rw [ih]
    simp [increment_download_count]
    omega

/-- Trace bookkeeping: a sequence of share-access increments adds its length
to `access_count`. -/
theorem applyAccessTrace_count (ts : List Nat) : ∀ sh : Share,
    (applyAccessTrace sh ts).accessCount = sh.accessCount + ts.length := by
  induction ts with
  | nil => intro sh; rfl
  | cons t ts ih =>
    intro sh
    show (applyAccessTrace (increment_access_count sh t) ts).accessCount = _
    rw [ih]
    simp [increment_access_count]
    omega

/-- With a forward-moving clock, a download trace never moves `last_accessed`
backward. -/
theorem applyDownloadTrace_lastAccessed (ts : List Nat) : ∀ d : Document,
    List.Chain (· ≤ ·) (accessTime d.lastAccessed) ts →
    accessTime d.lastAccessed ≤ accessTime (applyDownloadTrace d ts).lastAccessed := by
  induction ts with
  | nil => intro d _; exact le_refl _
  | cons t ts ih =>
    intro d hch
    rcases List.chain_cons.mp hch with ⟨hle, hch'⟩
    have hstep : accessTime (increment_download_count d t).lastAccessed = t := rfl
    have h3 := ih (increment_download_count d t) (by rw [hstep]; exact hch')
    rw [hstep] at h3
    exact le_trans hle h3

/-- With a forward-moving clock, a share-access trace never moves
`last_accessed` backward. -/
theorem applyAccessTrace_lastAccessed (ts : List Nat) : ∀ sh : Share,
    List.Chain (· ≤ ·) (accessTime sh.lastAccessed) ts →
    accessTime sh.lastAccessed ≤ accessTime (applyAccessTrace sh ts).lastAccessed := by
  induction ts with
  | nil => intro sh _; exact le_refl _
  | cons t ts ih =>
    intro sh hch
    rcases List.chain_cons.mp hch with ⟨hle, hch'⟩
    have hstep : accessTime (increment_access_count sh t).lastAccessed = t := rfl
    have h3 := ih (increment_access_count sh t) (by rw [hstep]; exact hch')
    rw [hstep] at h3
    exact le_trans hle h3

/-- C8: the document owner is allowed every access decision — retrieve (view),
download, destroy (delete), the per-object permission for every HTTP method
(so also edit-style methods), share authorization, and list-queryset
membership — regardless of shares, grants, expiry or the public flag. -/
theorem owner_full_access (db : DB) (now : Nat) (u : User) (d : Document)
    (hauth : u.isAuthenticated = true) (hown : d.ownerId = u.uid) :
    viewDecision db now u d = true ∧
    downloadDecision db now u d = true ∧
    deleteDecision db now u d = true ∧
    (∀ method : String, hasObjectPermission db now u method d = true) ∧
    shareAuthDecision db u d = true ∧
    inQueryset db now u d = true := by
  have hperm := hasPermissionDetail_of_auth u hauth
  have hobj : ∀ m : String, hasObjectPermission db now u m d = true := by
    intro m
    simp [hasObjectPermission, hown]
  have hq : inQueryset db now u d = true := by simp [inQueryset, hown]
  refine ⟨?_, ?_, ?_, hobj, ?_, hq⟩
  · simp [viewDecision, hperm, hobj]
  · simp [downloadDecision, hperm, hobj, downloadBodyCheck, hown]
  · simp [deleteDecision, hperm, hobj, hq]
  · simp [shareAuthDecision, hperm, canShareObjectPermission, hown]

/-- C8 witness: the owner of `privateDoc` at every decision. -/
theorem owner_full_access_witness :
    viewDecision dbViewShare 0 ownerUser privateDoc = true ∧
    downloadDecision dbViewShare 0 ownerUser privateDoc = true ∧
    deleteDecision dbViewShare 0 ownerUser privateDoc = true ∧
    (∀ method : String, hasObjectPermission dbViewShare 0 ownerUser method privateDoc = true) ∧
    shareAuthDecision dbViewShare ownerUser privateDoc = true ∧
    inQueryset dbViewShare 0 ownerUser privateDoc = true :=
  owner_full_access dbViewShare 0 ownerUser privateDoc rfl rfl

/-- C6: none of the main view set's access decisions reads the document's
lifecycle `status`: changing only `status` (for example "active" to "deleted")
leaves list-queryset membership, the per-object permission for every method,
and the view/delete/download decisions unchanged, for every subject. -/
theorem status_independent_decisions (db : DB) (now : Nat) (u : User)
    (method : String) (d : Document) (s : String) :
    inQueryset db now u { d with status := s } = inQueryset db now u d ∧
    hasObjectPermission db now u method { d with status := s }
      = hasObjectPermission db now u method d ∧
    viewDecision db now u { d with status := s } = viewDecision db now u d ∧
    deleteDecision db now u { d with status := s } = deleteDecision db now u d ∧
    downloadDecision db now u { d with status := s } = downloadDecision db now u d :=
  ⟨rfl, rfl, rfl, rfl, rfl⟩

/-- C9: an upload whose content hash equals the `file_hash` of any existing
document row is rejected as duplicate content, by any requester, and the
document store is left unchanged. -/
theorem duplicate_hash_upload_rejected (db : DB) (requester : User)
    (h title status : String) (isPublic uploadOk : Bool) (newId : Nat)
    (doc : Document) (hmem : doc ∈ db.documents) (hh : doc.fileHash = h) :
    createDocument db requester h title isPublic status uploadOk newId
      = (.duplicateContent, db) := by
  unfold createDocument
  have hdup : db.documents.any (fun x => x.fileHash == h) = true :=
    List.any_eq_true.mpr ⟨doc, hmem, by simp [hh]⟩
  simp [hdup]

/-- C9 witness: re-uploading the bytes hashing to "h1" while `privateDoc`
(hash "h1") exists is rejected and the store is unchanged. -/
theorem duplicate_hash_upload_rejected_witness :
    createDocument dbViewShare granteeUser "h1" "copy" false "active" true 99
      = (.duplicateContent, dbViewShare) :=
  duplicate_hash_upload_rejected dbViewShare granteeUser "h1" "copy" "active"
    false true 99 privateDoc (by decide) rfl

/-- C10: each invocation of `Document.increment_download_count` and
`Share.increment_access_count` is a relative update adding exactly one to the
stored counter (so the counter strictly increases) and stamps `last_accessed`
with the current clock; across any sequence of invocations the counters grow
by the number of invocations and, when the clock readings move forward,
`last_accessed` never moves backward. -/
theorem counter_increments_monotone (d : Document) (sh : Share) (now : Nat)
    (ts : List Nat)
    (hd : List.Chain (· ≤ ·) (accessTime d.lastAccessed) ts)
    (hs : List.Chain (· ≤ ·) (accessTime sh.lastAccessed) ts) :
    (increment_download_count d now).downloadCount = d.downloadCount + 1 ∧
    d.downloadCount < (increment_download_count d now).downloadCount ∧
    (increment_download_count d now).lastAccessed = some now ∧
    (increment_access_count sh now).accessCount = sh.accessCount + 1 ∧
    sh.accessCount < (increment_access_count sh now).accessCount ∧
    (increment_access_count sh now).lastAccessed = some now ∧
    (applyDownloadTrace d ts).downloadCount = d.downloadCount + ts.length ∧
    (applyAccessTrace sh ts).accessCount = sh.accessCount + ts.length ∧
    accessTime d.lastAccessed ≤ accessTime (applyDownloadTrace d ts).lastAccessed ∧
    accessTime sh.lastAccessed ≤ accessTime (applyAccessTrace sh ts).lastAccessed :=
  ⟨rfl, Nat.lt_succ_self _, rfl, rfl, Nat.lt_succ_self _, rfl,
   applyDownloadTrace_count ts d, applyAccessTrace_count ts sh,
   applyDownloadTrace_lastAccessed ts d hd, applyAccessTrace_lastAccessed ts sh hs⟩

/-- C10 witness: `privateDoc` and `viewShare` through the clock trace
`[3, 5]`. -/
theorem counter_increments_monotone_witness :
    (increment_download_count privateDoc 3).downloadCount = privateDoc.downloadCount + 1 ∧
    privateDoc.downloadCount < (increment_download_count privateDoc 3).downloadCount ∧
    (increment_download_count privateDoc 3).lastAccessed = some 3 ∧
    (increment_access_count viewShare 3).accessCount = viewShare.accessCount + 1 ∧
    viewShare.accessCount < (increment_access_count viewShare 3).accessCount ∧
    (increment_access_count viewShare 3).lastAccessed = some 3 ∧
    (applyDownloadTrace privateDoc [3, 5]).downloadCount = privateDoc.downloadCount + 2 ∧
    (applyAccessTrace viewShare [3, 5]).accessCount = viewShare.accessCount + 2 ∧
    accessTime privateDoc.lastAccessed
      ≤ accessTime (applyDownloadTrace privateDoc [3, 5]).lastAccessed ∧
    accessTime viewShare.lastAccessed
      ≤ accessTime (applyAccessTrace viewShare [3, 5]).lastAccessed :=
  counter_increments_monotone privateDoc viewShare 3 [3, 5]
    (List.Chain.cons (by decide) (List.Chain.cons (by decide) List.Chain.nil))
    (List.Chain.cons (by decide) (List.Chain.cons (by decide) List.Chain.nil))

/-- C3: the recipient of an unexpired "view"-level share — not the owner, not
a superuser or admin-group member, holding no grants, on a non-public
document — gets allow for view and deny for download. -/
theorem view_share_view_allowed_download_denied (db : DB) (now : Nat)
    (u : User) (d : Document) (sh : Share)
    (hauth : u.isAuthenticated = true)
    (hsup : u.isSuperuser = false)
    (hadm : checkGroupPermission u = false)
    (hown : d.ownerId ≠ u.uid)
    (hpub : d.isPublic = false)
    (hnogr : ∀ g ∈ db.grants, g.userId ≠ u.uid)
    (hmem : sh ∈ db.shares)
    (hdoc : sh.documentId = d.docId)
    (hwith : sh.sharedWithId = u.uid)
    (hlvl : sh.permissionLevel = "view")
    (hact : shareActiveAt now sh = true)
    (huniq : ∀ s ∈ db.shares,
      s.documentId = d.docId → s.sharedWithId = u.uid → s = sh) :
    viewDecision db now u d = true ∧ downloadDecision db now u d = false := by
  have hgp : ∀ p : String, guardianHasPerm db u p d = false :=
    fun p => guardianHasPerm_eq_false db u p d hsup hnogr
  have howneq : (d.ownerId == u.uid) = false := by simp [hown]
  have hread : checkReadPermission db now u d = true := by
    unfold checkReadPermission
    simp only [hgp, hpub, Bool.false_eq_true, if_false]
    exact List.any_eq_true.mpr ⟨sh, hmem, by simp [hdoc, hwith, hact]⟩
  have hobj : hasObjectPermission db now u "GET" d = true := by
    unfold hasObjectPermission
    simp only [hsup, hadm, Bool.or_self, Bool.false_eq_true, if_false, howneq]
    simp [isSafeMethod, hread]
  have hbody : downloadBodyCheck db now u d = false := by
    unfold downloadBodyCheck
    rw [howneq, hgp, hpub]
    simp only [Bool.false_or]
    simp only [List.any_eq_false]
    intro s hsmem hcontra
    simp only [Bool.and_eq_true, Bool.or_eq_true, beq_iff_eq] at hcontra
    obtain ⟨⟨⟨ha, hb⟩, hc⟩, -⟩ := hcontra
    have hse : s = sh := huniq s hsmem ha hb
    rw [hse, hlvl] at hc
    rcases hc with hc | hc <;> exact absurd hc (by decide)
  constructor
  · simp [viewDecision, hasPermissionDetail_of_auth u hauth, hobj]
  · simp [downloadDecision, hbody]

/-- C3 witness: recipient uid 3 of the unexpired view-level `viewShare` on the
private `privateDoc` at time 4. -/
theorem view_share_view_allowed_download_denied_witness :
    viewDecision dbViewShare 4 recipientUser privateDoc = true ∧
    downloadDecision dbViewShare 4 recipientUser privateDoc = false :=
  view_share_view_allowed_download_denied dbViewShare 4 recipientUser
    privateDoc viewShare rfl rfl (by decide) (by decide) rfl (by decide)
    (by decide) rfl rfl rfl rfl (by decide)

/-- C4: a share whose expiry lies strictly in the past confers nothing: its
recipient — not the owner, not a superuser or admin-group member, holding no
grants, on a non-public document — gets deny for view and is excluded from
the list queryset, whatever the share's permission level. -/
theorem expired_share_view_denied (db : DB) (now : Nat) (u : User)
    (d : Document) (sh : Share) (t : Nat)
    (hsup : u.isSuperuser = false)
    (hadm : checkGroupPermission u = false)
    (hown : d.ownerId ≠ u.uid)
    (hpub : d.isPublic = false)
    (hnogr : ∀ g ∈ db.grants, g.userId ≠ u.uid)
    (hmem : sh ∈ db.shares)
    (hdoc : sh.documentId = d.docId)
    (hwith : sh.sharedWithId = u.uid)
    (hexp : sh.expiresAt = some t)
    (hpast : t < now)
    (huniq : ∀ s ∈ db.shares,
      s.documentId = d.docId → s.sharedWithId = u.uid → s = sh) :
    viewDecision db now u d = false ∧ inQueryset db now u d = false := by
  have hgp : ∀ p : String, guardianHasPerm db u p d = false :=
    fun p => guardianHasPerm_eq_false db u p d hsup hnogr
  have howneq : (d.ownerId == u.uid) = false := by simp [hown]
  have hactf : shareActiveAt now sh = false := by
    unfold shareActiveAt
    rw [hexp]
    simp only [decide_eq_false_iff_not, Nat.not_lt]
    omega
  have hread : checkReadPermission db now u d = false := by
    unfold checkReadPermission
    simp only [hgp, hpub, Bool.false_eq_true, if_false]
    simp only [List.any_eq_false]
    intro s hsmem hcontra
    simp only [Bool.and_eq_true, beq_iff_eq] at hcontra
    obtain ⟨⟨ha, hb⟩, hc⟩ := hcontra
    have hse : s = sh := huniq s hsmem ha hb
    rw [hse, hactf] at hc
    exact absurd hc (by decide)
  have hobj : hasObjectPermission db now u "GET" d = false := by
    unfold hasObjectPermission
    simp only [hsup, hadm, Bool.or_self, Bool.false_eq_true, if_false, howneq]
    simp [isSafeMethod, hread]
  constructor
  · simp [viewDecision, hobj]
  · unfold inQueryset
    simp only [hsup, Bool.false_eq_true, if_false, howneq, hpub,
      Bool.false_or, Bool.or_false]
    rw [Bool.or_eq_false_iff]
    constructor
    · simp only [List.any_eq_false]
      intro s hsmem hcontra
      simp only [Bool.and_eq_true, beq_iff_eq] at hcontra
      obtain ⟨⟨ha, hb⟩, hc⟩ := hcontra
      have hse : s = sh := huniq s hsmem ha hb
      rw [hse, hexp] at hc
      exact Option.noConfusion hc
    · simp only [List.any_eq_false]
      intro s hsmem hcontra
      simp only [Bool.and_eq_true, beq_iff_eq] at hcontra
      obtain ⟨⟨ha, hb⟩, hc⟩ := hcontra
      have hse : s = sh := huniq s hsmem ha hb
      rw [hse, hexp] at hc
      simp only [decide_eq_true_eq] at hc
      omega

/-- C4 witness: recipient uid 3 of `expiredShare` (expired at 5) on the
private `privateDoc` at time 9. -/
theorem expired_share_view_denied_witness :
    viewDecision dbExpiredShare 9 recipientUser privateDoc = false ∧
    inQueryset dbExpiredShare 9 recipientUser privateDoc = false :=
  expired_share_view_denied dbExpiredShare 9 recipientUser privateDoc
    expiredShare 5 rfl (by decide) (by decide) rfl (by decide) (by decide)
    rfl rfl rfl (by decide) (by decide)

/-- C1 counterexample: uid 2 is not the owner of the public `publicDoc`, not
a superuser, not a "document_admins" member, there are no shares at all, yet
a `delete_doc` grant row makes the full delete decision — visibility gate
included (the public document is in uid 2's queryset) — allow, so a direct
Grant does confer delete, refuting the claim as stated. -/
theorem delete_grant_allows_delete_counterexample :
    granteeUser.isSuperuser = false ∧
    checkGroupPermission granteeUser = false ∧
    publicDoc.ownerId ≠ granteeUser.uid ∧
    dbPublicDeleteGrant.shares = [] ∧
    deleteDecision dbPublicDeleteGrant 0 granteeUser publicDoc = true :=
  ⟨rfl, by decide, by decide, rfl, by decide⟩

/-- C1 amended: for a subject who is not the owner, not a superuser and not
an admin-group member, the delete decision equals "authenticated, the
document visible to the subject (in their list queryset: actively shared
with them or public), active, and holding a `delete_doc` grant on the
document".  In particular no Share by itself ever makes delete allow (a share
only contributes visibility, and the grant conjunct is still required), but a
`delete_doc` Grant on a visible document does. -/
theorem delete_decision_for_non_owner (db : DB) (now : Nat) (u : User)
    (d : Document)
    (hsup : u.isSuperuser = false)
    (hadm : checkGroupPermission u = false)
    (hown : d.ownerId ≠ u.uid) :
    deleteDecision db now u d
      = (u.isAuthenticated && inQueryset db now u d
         && (u.isActive && hasGrant db u.uid "delete_doc" d.docId)) := by
  have hcode : permCodename "documents.delete_doc" = "delete_doc" := by decide
  cases hau : u.isAuthenticated with
  | false => simp [deleteDecision, hasPermissionDetail, hau]
  | true =>
    cases hac : u.isActive with
    | false =>
      simp [deleteDecision, hasPermissionDetail, hasObjectPermission,
        guardianHasPerm, isSafeMethod, hau, hac, hsup, hadm, hown]
    | true =>
      simp [deleteDecision, hasPermissionDetail, hasObjectPermission,
        guardianHasPerm, isSafeMethod, hau, hac, hsup, hadm, hown, hcode]

/-- C1 amended witness: uid 2 with the `delete_doc` grant on the visible
`publicDoc`. -/
theorem delete_decision_for_non_owner_witness :
    deleteDecision dbPublicDeleteGrant 0 granteeUser publicDoc
      = (granteeUser.isAuthenticated && inQueryset dbPublicDeleteGrant 0 granteeUser publicDoc
         && (granteeUser.isActive
             && hasGrant dbPublicDeleteGrant granteeUser.uid "delete_doc" publicDoc.docId)) :=
  delete_decision_for_non_owner dbPublicDeleteGrant 0 granteeUser publicDoc rfl
    (by decide) (by decide)

/-- C2 counterexample: uid 2 is neither a superuser nor the owner of
`privateDoc`, yet a `share_doc` grant row makes the share-authorization
decision allow — refuting "allow iff superuser or owner". -/
theorem share_grant_allows_share_counterexample :
    granteeUser.isSuperuser = false ∧
    privateDoc.ownerId ≠ granteeUser.uid ∧
    shareAuthDecision dbShareGrant granteeUser privateDoc = true :=
  ⟨rfl, by decide, by decide⟩

/-- C2 amended: for an authenticated subject the share-authorization decision
equals "owner, or active and (superuser or holder of a `share_doc` grant)" —
existing Shares at any level still confer nothing (the store's shares do not
occur in the right-hand side), but a `share_doc` Grant does. -/
theorem share_authorization_characterization (db : DB) (u : User)
    (d : Document) (hauth : u.isAuthenticated = true) :
    shareAuthDecision db u d
      = (d.ownerId == u.uid
         || (u.isActive && (u.isSuperuser || hasGrant db u.uid "share_doc" d.docId))) := by
  have hcode : permCodename "documents.share_doc" = "share_doc" := by decide
  have hperm := hasPermissionDetail_of_auth u hauth
  unfold shareAuthDecision canShareObjectPermission check_document_access guardianHasPerm
  rw [hperm]
  simp only [Bool.true_and]
  cases ho : (d.ownerId == u.uid) with
  | true => simp [ho]
  | false =>
    simp only [ho, Bool.false_eq_true, if_false, Bool.false_or]
    cases hac : u.isActive <;> cases hsup : u.isSuperuser <;>
      simp [hac, hsup, hcode]

/-- C2 amended witness: uid 2 with the `share_doc` grant on `privateDoc`. -/
theorem share_authorization_characterization_witness :
    shareAuthDecision dbShareGrant granteeUser privateDoc
      = (privateDoc.ownerId == granteeUser.uid
         || (granteeUser.isActive && (granteeUser.isSuperuser
             || hasGrant dbShareGrant granteeUser.uid "share_doc" privateDoc.docId))) :=
  share_authorization_characterization dbShareGrant granteeUser privateDoc rfl

/-- C5 counterexample: uid 2 is the original grantor (`shared_by`) of
`publicDocShare` on the public `publicDoc` but not the document owner; the
document is visible to uid 2 (it is public, so `get_object()` finds it), yet
the DELETE is rejected with 403 and the store is unchanged — refuting "owner
**or original grantor** may revoke". -/
theorem grantor_cannot_unshare_counterexample :
    publicDocShare.sharedById = some granteeUser.uid ∧
    publicDoc.ownerId ≠ granteeUser.uid ∧
    publicDocShare ∈ dbPublicShared.shares ∧
    publicDocShare.documentId = publicDoc.docId ∧
    unshare dbPublicShared 0 granteeUser publicDoc publicDocShare.shareId
      = (UnshareResult.forbidden, dbPublicShared) :=
  ⟨rfl, by decide, by decide, rfl, by decide⟩

/-- C5 amended: given the share exists on the document and the actor is
authenticated, the revoke-share operation succeeds exactly when the actor is
the document owner; every other actor — including the share's original
grantor — is rejected, with 404 not-found when the document is not visible
to them and 403 otherwise, and the Share store is left unchanged. -/
theorem unshare_owner_only (db : DB) (now : Nat) (actor : User)
    (d : Document) (sid : Nat) (sh : Share)
    (hauth : actor.isAuthenticated = true)
    (hfind : db.shares.find?
        (fun s => s.shareId == sid && s.documentId == d.docId) = some sh) :
    ((unshare db now actor d sid).fst = UnshareResult.noContent
       ↔ actor.uid = d.ownerId) ∧
    (actor.uid ≠ d.ownerId →
       ((unshare db now actor d sid).fst = UnshareResult.forbidden ∨
        (unshare db now actor d sid).fst = UnshareResult.notFound) ∧
       (unshare db now actor d sid).snd = db) := by
  have hpd : hasPermissionDetail actor = true :=
    hasPermissionDetail_of_auth actor hauth
  by_cases h : actor.uid = d.ownerId
  · have hq : inQueryset db now actor d = true := by simp [inQueryset, h]
    have hop : hasObjectPermission db now actor "DELETE" d = true := by
      simp [hasObjectPermission, h]
    unfold unshare
    simp [hpd, hq, hop, h, hfind]
  · unfold unshare
    have hbne : (actor.uid != d.ownerId) = true := by simp [h]
    cases hq : inQueryset db now actor d with
    | false => simp [hpd, hq, h]
    | true =>
      cases hop : hasObjectPermission db now actor "DELETE" d with
      | false => simp [hpd, hq, hop, h]
      | true => simp [hpd, hq, hop, hbne, h]

/-- C5 amended witness: grantor uid 2 against `publicDocShare` (share id 12)
on the visible `publicDoc`. -/
theorem unshare_owner_only_witness :
    ((unshare dbPublicShared 0 granteeUser publicDoc 12).fst = UnshareResult.noContent
       ↔ granteeUser.uid = publicDoc.ownerId) ∧
    (granteeUser.uid ≠ publicDoc.ownerId →
       ((unshare dbPublicShared 0 granteeUser publicDoc 12).fst = UnshareResult.forbidden ∨
        (unshare dbPublicShared 0 granteeUser publicDoc 12).fst = UnshareResult.notFound) ∧
       (unshare dbPublicShared 0 granteeUser publicDoc 12).snd = dbPublicShared) :=
  unshare_owner_only dbPublicShared 0 granteeUser publicDoc 12 publicDocShare
    rfl rfl

